import Mathlib

/-!
Shallow embedding of the CLI/Telegram AI-assistant core
(`context_manager.py`, `proxyapi_client.py`, `chat_ai.py`, `bot.py`,
`config.py`) and proofs about it.

Python dictionaries are modelled as association lists with first-match
lookup and in-place replacement on assignment; machine integers are `Int`
(Python ints are unbounded); fallible paths return `Option`/`Except`.
-/

/-- A chat message dictionary `{"role": ..., "content": ...}`. -/
structure Msg where
  role : String
  content : String
deriving DecidableEq

/-- First-match lookup, the read semantics of a Python dict key access. -/
def dictGet? {α β : Type} [DecidableEq α] : List (α × β) → α → Option β
  | [], _ => none
  | (k, v) :: rest, key => if k = key then some v else dictGet? rest key

/-- Python dict assignment `d[key] = val`: replace in place if the key is
present, append otherwise. -/
def dictSet {α β : Type} [DecidableEq α] : List (α × β) → α → β → List (α × β)
  | [], key, val => [(key, val)]
  | (k, v) :: rest, key, val =>
    if k = key then (key, val) :: rest else (k, v) :: dictSet rest key val

/-- Python `del d[key]`: drop the entry for the key. -/
def dictDel {α β : Type} [DecidableEq α] : List (α × β) → α → List (α × β)
  | [], _ => []
  | (k, v) :: rest, key => if k = key then rest else (k, v) :: dictDel rest key

theorem dictGet?_dictSet_self {α β : Type} [DecidableEq α]
    (d : List (α × β)) (k : α) (v : β) : dictGet? (dictSet d k v) k = some v := by
  induction d with
  | nil => simp [dictSet, dictGet?]
  | cons hd tl ih =>
    obtain ⟨k', v'⟩ := hd
    by_cases h : k' = k <;> simp [dictSet, dictGet?, h, ih]

theorem mem_dictSet {α β : Type} [DecidableEq α]
    {d : List (α × β)} {k : α} {v : β} {kv : α × β} :
    kv ∈ dictSet d k v → kv = (k, v) ∨ kv ∈ d := by
  induction d with
  | nil =>
    intro h
    simp only [dictSet, List.mem_singleton] at h
    exact Or.inl h
  | cons hd tl ih =>
    obtain ⟨k', v'⟩ := hd
    intro h
    by_cases hk : k' = k
    · simp only [dictSet, if_pos hk, List.mem_cons] at h
      rcases h with h | h
      · exact Or.inl h
      · exact Or.inr (List.mem_cons_of_mem _ h)
    · simp only [dictSet, if_neg hk, List.mem_cons] at h
      rcases h with h | h
      · exact Or.inr (h ▸ List.mem_cons_self _ _)
      · rcases ih h with h' | h'
        · exact Or.inl h'
        · exact Or.inr (List.mem_cons_of_mem _ h')

theorem mem_dictDel {α β : Type} [DecidableEq α]
    {d : List (α × β)} {k : α} {kv : α × β} :
    kv ∈ dictDel d k → kv ∈ d := by
  induction d with
  | nil => intro h; simp [dictDel] at h
  | cons hd tl ih =>
    obtain ⟨k', v'⟩ := hd
    intro h
    by_cases hk : k' = k
    · simp only [dictDel, if_pos hk] at h
      exact List.mem_cons_of_mem _ h
    · simp only [dictDel, if_neg hk, List.mem_cons] at h
      rcases h with h | h
      · exact h ▸ List.mem_cons_self _ _
      · exact List.mem_cons_of_mem _ (ih h)

theorem dictGet?_mem {α β : Type} [DecidableEq α]
    {d : List (α × β)} {k : α} {v : β} :
    dictGet? d k = some v → (k, v) ∈ d := by
  induction d with
  | nil => intro h; simp [dictGet?] at h
  | cons hd tl ih =>
    obtain ⟨k', v'⟩ := hd
    intro h
    by_cases hk : k' = k
    · simp only [dictGet?, if_pos hk] at h
      subst hk; cases h
      exact List.mem_cons_self _ _
    · simp only [dictGet?, if_neg hk] at h
      exact List.mem_cons_of_mem _ (ih h)

/-! ## Configuration constants (`config.py`) -/

/-- `MAX_CONTEXT_LENGTH = 50` from `config.py`. -/
def MAX_CONTEXT_LENGTH : Nat := 50

/-- `DEFAULT_SYSTEM_PROMPT` from `config.py`. -/
def DEFAULT_SYSTEM_PROMPT : String := "По умолчанию."

/-- `DEFAULT_TEMPERATURE = 0.7` from `config.py`. -/
def DEFAULT_TEMPERATURE : Rat := 7 / 10

/-- `DEFAULT_MAX_TOKENS = 1000` from `config.py`. -/
def DEFAULT_MAX_TOKENS : Int := 1000

/-! ## Session store (`context_manager.py`) -/

/-- One per-user context dictionary as written by `ContextManager`.
`tokens_used` is `Option`-valued because the `"tokens_used"` key can be
absent from a loaded context, and the source branches on its presence. -/
structure Session where
  messages : List Msg
  model : String
  provider : String
  system_prompt : Option String
  temperature : Rat
  max_tokens : Int
  tokens_used : Option (List (String × Int))
deriving DecidableEq

/-- The in-memory `self.contexts : Dict[int, Dict]` mapping. -/
abbrev Store := List (Int × Session)

/-- The dictionary literal `{"openai": 0, "anthropic": 0}` used as the
default / initial usage-counter mapping throughout `context_manager.py`. -/
def defaultTokensUsed : List (String × Int) := [("openai", 0), ("anthropic", 0)]

/-- The fresh context created by `ContextManager.get_context` for an
unknown user. -/
def defaultContext : Session :=
  { messages := []
    model := "gpt-3.5-turbo"
    provider := "openai"
    system_prompt := some DEFAULT_SYSTEM_PROMPT
    temperature := DEFAULT_TEMPERATURE
    max_tokens := DEFAULT_MAX_TOKENS
    tokens_used := some defaultTokensUsed }

/-- `ContextManager.get_context`: return the stored context, lazily
creating the default one for a new user. Returns the (possibly extended)
store together with the context. -/
def get_context (st : Store) (user_id : Int) : Store × Session :=
  match dictGet? st user_id with
  | some c => (st, c)
  | none => (dictSet st user_id defaultContext, defaultContext)

/-- `ContextManager.update_context`: truncate the incoming message list to
the last `MAX_CONTEXT_LENGTH` entries, keep the existing `tokens_used`
mapping (defaulting to `{"openai": 0, "anthropic": 0}` when absent), and
overwrite the user's context. -/
def update_context (st : Store) (user_id : Int) (messages : List Msg)
    (model : String) (provider : String) (system_prompt : Option String)
    (temperature : Rat) (max_tokens : Int) : Store :=
  let messages :=
    if MAX_CONTEXT_LENGTH < messages.length then
      messages.drop (messages.length - MAX_CONTEXT_LENGTH)
    else messages
  let existing_tokens :=
    match dictGet? st user_id with
    | some c =>
      match c.tokens_used with
      | some t => t
      | none => defaultTokensUsed
    | none => defaultTokensUsed
  dictSet st user_id
    { messages := messages
      model := model
      provider := provider
      system_prompt := system_prompt
      temperature := temperature
      max_tokens := max_tokens
      tokens_used := some existing_tokens }

/-- `ContextManager.clear_context`: remove the user's entry entirely. -/
def clear_context (st : Store) (user_id : Int) : Store :=
  dictDel st user_id

/-- `ContextManager.add_tokens_used`: fetch (or create) the context,
ensure `tokens_used` and the provider key exist, then add `tokens` to the
provider's counter. -/
def add_tokens_used (st : Store) (user_id : Int) (provider : String)
    (tokens : Int) : Store :=
  let r := get_context st user_id
  let c := r.2
  let tu := c.tokens_used.getD defaultTokensUsed
  let tu := if (dictGet? tu provider).isSome then tu else dictSet tu provider 0
  let old_value := (dictGet? tu provider).getD 0
  dictSet r.1 user_id { c with tokens_used := some (dictSet tu provider (old_value + tokens)) }

/-- `ContextManager.get_tokens_used`: read the provider's counter,
defaulting the whole mapping and the individual key to 0. -/
def get_tokens_used (st : Store) (user_id : Int) (provider : String) : Store × Int :=
  let r := get_context st user_id
  (r.1, (dictGet? (r.2.tokens_used.getD defaultTokensUsed) provider).getD 0)

/-- `ContextManager.reset_tokens_used`: set the provider's counter to 0. -/
def reset_tokens_used (st : Store) (user_id : Int) (provider : String) : Store :=
  let r := get_context st user_id
  let c := r.2
  let tu := c.tokens_used.getD defaultTokensUsed
  dictSet r.1 user_id { c with tokens_used := some (dictSet tu provider 0) }

/-! ## Store lemmas and claims C1, C2 -/

theorem truncate_messages_spec (messages : List Msg) :
    (if MAX_CONTEXT_LENGTH < messages.length then
        messages.drop (messages.length - MAX_CONTEXT_LENGTH) else messages)
      = messages.drop (messages.length - MAX_CONTEXT_LENGTH) := by
  by_cases h : MAX_CONTEXT_LENGTH < messages.length
  · rw [if_pos h]
  · rw [if_neg h]
    have h0 : messages.length - MAX_CONTEXT_LENGTH = 0 := by
      simp only [MAX_CONTEXT_LENGTH] at *
      omega
    rw [h0, List.drop_zero]

/-- C1: an `update_context` call (in particular a provider switch) leaves
every stored usage counter exactly as it was before the call, and when no
prior session existed for the user key the counters are written as
`{"openai": 0, "anthropic": 0}` in the same write. -/
theorem update_context_preserves_usage (st : Store) (user_id : Int)
    (messages : List Msg) (model provider : String) (system_prompt : Option String)
    (temperature : Rat) (max_tokens : Int) :
    (∀ p, (get_tokens_used (update_context st user_id messages model provider
            system_prompt temperature max_tokens) user_id p).2
        = (get_tokens_used st user_id p).2) ∧
    (dictGet? st user_id = none →
      (dictGet? (update_context st user_id messages model provider system_prompt
          temperature max_tokens) user_id).map Session.tokens_used
        = some (some [("openai", 0), ("anthropic", 0)])) := by
  constructor
  · intro p
    cases h : dictGet? st user_id with
    | none =>
      simp [update_context, get_tokens_used, get_context, h,
        dictGet?_dictSet_self, defaultContext]
    | some c =>
      cases ht : c.tokens_used with
      | none =>
        simp [update_context, get_tokens_used, get_context, h, ht,
          dictGet?_dictSet_self]
      | some t =>
        simp [update_context, get_tokens_used, get_context, h, ht,
          dictGet?_dictSet_self]
  · intro h
    simp [update_context, h, dictGet?_dictSet_self, defaultTokensUsed]

theorem update_context_preserves_usage_witness :
    (get_tokens_used (update_context [] 1 [] "gpt-3.5-turbo" "anthropic" none 0 1000)
        1 "openai").2
      = (get_tokens_used [] 1 "openai").2 ∧
    (dictGet? (update_context [] 1 [] "gpt-3.5-turbo" "anthropic" none 0 1000) 1).map
        Session.tokens_used
      = some (some [("openai", 0), ("anthropic", 0)]) :=
  ⟨(update_context_preserves_usage [] 1 [] "gpt-3.5-turbo" "anthropic" none 0 1000).1
      "openai",
   (update_context_preserves_usage [] 1 [] "gpt-3.5-turbo" "anthropic" none 0 1000).2
      rfl⟩

/-- C2: after any `update_context` call the stored history has length at
most `MAX_CONTEXT_LENGTH` and equals the last `min(length, 50)` entries of
the input list in their original order. -/
theorem update_context_truncates (st : Store) (user_id : Int)
    (messages : List Msg) (model provider : String) (system_prompt : Option String)
    (temperature : Rat) (max_tokens : Int) :
    ∃ s, dictGet? (update_context st user_id messages model provider system_prompt
          temperature max_tokens) user_id = some s ∧
      s.messages = messages.drop (messages.length - MAX_CONTEXT_LENGTH) ∧
      s.messages.length = min messages.length MAX_CONTEXT_LENGTH ∧
      s.messages.length ≤ MAX_CONTEXT_LENGTH := by
  unfold update_context
  refine ⟨_, dictGet?_dictSet_self _ _ _, ?_, ?_, ?_⟩ <;>
    simp only [truncate_messages_spec, List.length_drop] <;>
    simp only [MAX_CONTEXT_LENGTH] <;> omega

/-! ## Provider adapter (`proxyapi_client.py`) -/

/-- Anthropic usage-field resolution in `ProxyAPIClient.send_message`:
`output_tokens or total_tokens or (input_tokens + output_tokens)`, with a
missing usage object resolving to 0. -/
def anthropic_resolved_tokens (usage : Option (Nat × Nat × Nat)) : Nat :=
  match usage with
  | none => 0
  | some (output_tokens, total_tokens, input_tokens) =>
    if output_tokens ≠ 0 then output_tokens
    else if total_tokens ≠ 0 then total_tokens
    else input_tokens + output_tokens

/-- OpenAI usage-field resolution in `ProxyAPIClient.send_message`:
`total_tokens or completion_tokens or (prompt_tokens + completion_tokens)`. -/
def openai_resolved_tokens (usage : Option (Nat × Nat × Nat)) : Nat :=
  match usage with
  | none => 0
  | some (total_tokens, completion_tokens, prompt_tokens) =>
    if total_tokens ≠ 0 then total_tokens
    else if completion_tokens ≠ 0 then completion_tokens
    else prompt_tokens + completion_tokens

/-- The token-estimate fallback shared by both provider branches of
`send_message`: a zero resolved count with a non-empty reply estimates
`max(1, len(ai_response) // 4)`; a zero count with an empty reply becomes 1. -/
def apply_token_fallback (tokens_used : Nat) (ai_response : String) : Nat :=
  if tokens_used = 0 ∧ ai_response.length ≠ 0 then max 1 (ai_response.length / 4)
  else if tokens_used = 0 then 1
  else tokens_used

/-- The final clamp `tokens_used = max(1, int(tokens_used))` before
`send_message` returns on success. -/
def final_tokens (tokens_used : Nat) : Nat := max 1 tokens_used

/-- Token count returned by a successful `send_message` call, as a function
of the usage-resolved count and the reply text. -/
def returned_tokens (resolved : Nat) (ai_response : String) : Nat :=
  final_tokens (apply_token_fallback resolved ai_response)

/-- `ProxyAPIClient.add_message`: append `{"role": ..., "content": ...}`. -/
def add_message (messages : List Msg) (role content : String) : List Msg :=
  messages ++ [{ role := role, content := content }]

/-- History left in the adapter by the `except` branch of `send_message`:
the user message appended at the start of the call is popped again when it
is the last entry. -/
def send_message_failed_history (messages : List Msg) (message : String) : List Msg :=
  let msgs := add_message messages "user" message
  match msgs.getLast? with
  | some m => if m.role = "user" then msgs.dropLast else msgs
  | none => msgs

/-- Token count returned by the `except` branch of `send_message`. -/
def error_result_tokens : Nat := 0

/-- `ProxyAPIClient._send_anthropic` extended-thinking parameters for a
model whose name contains the `sonnet-4-5` / `sonnet-4.5` marker: the pair
(effective `max_tokens` sent, `budget_tokens`). -/
def anthropic_thinking_params (max_tokens : Int) : Int × Int :=
  if max_tokens < 1536 then (2048, 1024)
  else (max_tokens, min 1024 (max_tokens * 66 / 100))

/-- One Anthropic content block `{"type": "text", "text": ...}`. -/
structure ABlock where
  type : String
  text : String
deriving DecidableEq

/-- One Anthropic request message `{"role": ..., "content": [block]}`. -/
structure AMsg where
  role : String
  content : List ABlock
deriving DecidableEq

/-- `ProxyAPIClient._anthropic_messages` (identical in `chat_ai.py`):
skip `system` roles, skip roles other than `user`/`assistant`, wrap the
rest as single text content blocks. -/
def anthropic_messages : List Msg → List AMsg
  | [] => []
  | msg :: rest =>
    if msg.role = "system" then anthropic_messages rest
    else if msg.role ≠ "user" ∧ msg.role ≠ "assistant" then anthropic_messages rest
    else { role := msg.role, content := [{ type := "text", text := msg.content }] }
        :: anthropic_messages rest

theorem returned_tokens_pos (resolved : Nat) (ai_response : String) :
    1 ≤ returned_tokens resolved ai_response :=
  Nat.le_max_left 1 _

/-- C3: with no usable usage field (resolved count 0), a 40-character reply
yields 10 tokens and an empty reply yields exactly 1; every successful call
returns `max(1, tokens_used)` after the fallback, hence never 0. -/
theorem send_message_token_fallback :
    (∀ s : String, s.length = 40 → returned_tokens 0 s = 10) ∧
    returned_tokens 0 "" = 1 ∧
    (∀ (resolved : Nat) (s : String),
      returned_tokens resolved s
          = max 1 (apply_token_fallback resolved s) ∧
        returned_tokens resolved s ≠ 0) := by
  refine ⟨?_, rfl, ?_⟩
  · intro s hs
    simp [returned_tokens, apply_token_fallback, final_tokens, hs]
  · intro resolved s
    refine ⟨rfl, ?_⟩
    have := returned_tokens_pos resolved s
    omega

theorem send_message_token_fallback_witness :
    returned_tokens 0 "0123456789012345678901234567890123456789" = 10 :=
  send_message_token_fallback.1 _ rfl

/-- C4: when `send_message` fails with a transport/parsing error, the
adapter history afterwards equals the history before the call, and the
reported token count is 0, strictly below the success floor of 1. -/
theorem send_message_error_result :
    (∀ (messages : List Msg) (message : String),
      send_message_failed_history messages message = messages) ∧
    error_result_tokens = 0 ∧
    (∀ (resolved : Nat) (s : String),
      error_result_tokens < returned_tokens resolved s) := by
  refine ⟨?_, rfl, ?_⟩
  · intro messages message
    simp [send_message_failed_history, add_message, List.getLast?_concat,
      List.dropLast_concat]
  · intro resolved s
    exact returned_tokens_pos resolved s

/-- C5: for an extended-reasoning model, `max_tokens` below 1536 is raised
to 2048 with a thinking budget of 1024; otherwise `max_tokens` is sent
unchanged with budget `min(1024, floor(max_tokens * 0.66))`; the budget is
always at most 1024 and strictly less than the effective `max_tokens`. -/
theorem anthropic_thinking_params_spec (max_tokens : Int) :
    (max_tokens < 1536 → anthropic_thinking_params max_tokens = (2048, 1024)) ∧
    (1536 ≤ max_tokens →
      anthropic_thinking_params max_tokens
        = (max_tokens, min 1024 (max_tokens * 66 / 100))) ∧
    (anthropic_thinking_params max_tokens).2 ≤ 1024 ∧
    (anthropic_thinking_params max_tokens).2 < (anthropic_thinking_params max_tokens).1 := by
  by_cases h : max_tokens < 1536
  · refine ⟨fun _ => by rw [anthropic_thinking_params, if_pos h], fun h' => absurd h (by omega), ?_, ?_⟩ <;>
      simp [anthropic_thinking_params, if_pos h]
  · have h' : (1536 : Int) ≤ max_tokens := by omega
    refine ⟨fun hc => absurd hc (by omega), fun _ => by rw [anthropic_thinking_params, if_neg h], ?_, ?_⟩ <;>
      rw [anthropic_thinking_params, if_neg h]
    · exact min_le_left _ _
    · calc min (1024 : Int) (max_tokens * 66 / 100) ≤ 1024 := min_le_left _ _
        _ < 1536 := by norm_num
        _ ≤ max_tokens := h'

theorem anthropic_thinking_params_witness :
    anthropic_thinking_params 1000 = (2048, 1024) :=
  (anthropic_thinking_params_spec 1000).1 (by norm_num)

/-- C10: the Anthropic request builder returns exactly the subsequence of
messages whose role is `user` or `assistant`, in order, each wrapped as a
single text content block; every other role is dropped. -/
theorem anthropic_messages_filters :
    ∀ messages : List Msg,
      anthropic_messages messages
        = (messages.filter (fun m => m.role = "user" ∨ m.role = "assistant")).map
            (fun m => { role := m.role, content := [{ type := "text", text := m.content }] }) := by
  intro messages
  induction messages with
  | nil => rfl
  | cons msg rest ih =>
    by_cases hs : msg.role = "system"
    · have h1 : ¬ (msg.role = "user" ∨ msg.role = "assistant") := by
        rw [hs]; rintro (h | h) <;> simp at h
      simp [anthropic_messages, hs, List.filter_cons, h1, ih]
    · by_cases hu : msg.role = "user"
      · simp [anthropic_messages, hs, hu, List.filter_cons, ih]
      · by_cases ha : msg.role = "assistant"
        · simp [anthropic_messages, hs, hu, ha, List.filter_cons, ih]
        · have h1 : ¬ (msg.role = "user" ∨ msg.role = "assistant") := by
            rintro (h | h) <;> [exact hu h; exact ha h]
          simp [anthropic_messages, hs, hu, ha, List.filter_cons, h1, ih]

/-! ## Claim C6: add_tokens_used -/

/-- The caller-side guard in `bot.py handle_message`: `add_tokens_used` is
only invoked when `tokens_used > 0`. -/
def handle_message_usage_update (st : Store) (user_id : Int) (provider : String)
    (tokens : Int) : Store :=
  if 0 < tokens then add_tokens_used st user_id provider tokens else st

theorem add_tokens_used_adds (st : Store) (user_id : Int) (provider : String)
    (tokens : Int) :
    (get_tokens_used (add_tokens_used st user_id provider tokens) user_id provider).2
      = (get_tokens_used st user_id provider).2 + tokens := by
  unfold add_tokens_used get_tokens_used get_context
  cases h : dictGet? st user_id with
  | none =>
    cases hvp : dictGet? (defaultContext.tokens_used.getD defaultTokensUsed) provider with
    | none => simp [h, hvp, dictGet?_dictSet_self]
    | some v => simp [h, hvp, dictGet?_dictSet_self]
  | some c =>
    cases hvp : dictGet? (c.tokens_used.getD defaultTokensUsed) provider with
    | none => simp [h, hvp, dictGet?_dictSet_self]
    | some v => simp [h, hvp, dictGet?_dictSet_self]

/-- C6 (counterexample): `add_tokens_used` with a negative amount is not a
no-op — starting from the empty store, adding `-3` leaves the counter at
`-3` although it was 0 before the call. -/
theorem add_tokens_used_negative_not_noop :
    (get_tokens_used [] 1 "openai").2 = 0 ∧
    (get_tokens_used (add_tokens_used [] 1 "openai" (-3)) 1 "openai").2 = -3 := by
  constructor <;> rfl

/-- C6 (amended): for every `add_tokens_used` call the counter for the
given provider afterwards equals the counter before plus `tokens`
(auto-vivifying a missing provider key to 0 first) — for positive, zero
and negative amounts alike; the `tokens <= 0` no-op guard lives in the
caller (`handle_message` skips the call unless `tokens > 0`), not in the
store. -/
theorem add_tokens_used_spec :
    (∀ (st : Store) (user_id : Int) (provider : String) (tokens : Int),
      (get_tokens_used (add_tokens_used st user_id provider tokens) user_id provider).2
        = (get_tokens_used st user_id provider).2 + tokens) ∧
    (∀ (st : Store) (user_id : Int) (provider : String) (tokens : Int),
      tokens ≤ 0 → handle_message_usage_update st user_id provider tokens = st) := by
  refine ⟨add_tokens_used_adds, ?_⟩
  intro st user_id provider tokens ht
  rw [handle_message_usage_update, if_neg (by omega)]

theorem add_tokens_used_spec_witness :
    (get_tokens_used (add_tokens_used [] 1 "openai" 5) 1 "openai").2
        = (get_tokens_used [] 1 "openai").2 + 5 ∧
    handle_message_usage_update [] 1 "openai" (-3) = [] :=
  ⟨add_tokens_used_spec.1 [] 1 "openai" 5,
   add_tokens_used_spec.2 [] 1 "openai" (-3) (by norm_num)⟩

/-! ## Claim C9: system-role messages in stored histories -/

/-- One Session Store operation as exposed to the bot layer. -/
inductive StoreOp where
  | get (user_id : Int)
  | update (user_id : Int) (messages : List Msg) (model provider : String)
      (system_prompt : Option String) (temperature : Rat) (max_tokens : Int)
  | clear (user_id : Int)
  | addUsage (user_id : Int) (provider : String) (tokens : Int)
  | resetUsage (user_id : Int) (provider : String)

/-- Apply one operation to the store. -/
def applyOp (st : Store) : StoreOp → Store
  | .get user_id => (get_context st user_id).1
  | .update user_id messages model provider system_prompt temperature max_tokens =>
      update_context st user_id messages model provider system_prompt temperature
        max_tokens
  | .clear user_id => clear_context st user_id
  | .addUsage user_id provider tokens => add_tokens_used st user_id provider tokens
  | .resetUsage user_id provider => reset_tokens_used st user_id provider

/-- Run a sequence of operations starting from the empty store. -/
def runOps (ops : List StoreOp) : Store := ops.foldl applyOp []

/-- No stored session's history contains a `system`-role message. -/
def NoSystemInStore (st : Store) : Prop :=
  ∀ kv ∈ st, ∀ m ∈ kv.2.messages, m.role ≠ "system"

/-- The operation's own inputs are free of `system`-role messages. -/
def NoSystemInOp : StoreOp → Prop
  | .update _ messages _ _ _ _ _ => ∀ m ∈ messages, m.role ≠ "system"
  | _ => True

/-- C9 (counterexample): `update_context` stores whatever message list it
is handed — a single operation sequence leaves a `system`-role message in
the stored history. -/
theorem update_context_stores_system_role :
    (get_context
        (runOps [StoreOp.update 1 [{ role := "system", content := "x" }]
          "gpt-3.5-turbo" "openai" none 0 1000]) 1).2.messages
      = [{ role := "system", content := "x" }] := by
  rfl

theorem get_context_no_system {st : Store} (hst : NoSystemInStore st) (user_id : Int) :
    NoSystemInStore (get_context st user_id).1 ∧
    ∀ m ∈ (get_context st user_id).2.messages, m.role ≠ "system" := by
  unfold get_context
  cases h : dictGet? st user_id with
  | some c =>
    exact ⟨hst, fun m hm => hst _ (dictGet?_mem h) m hm⟩
  | none =>
    constructor
    · intro kv hkv m hm
      rcases mem_dictSet hkv with rfl | hkv'
      · simp [defaultContext] at hm
      · exact hst _ hkv' m hm
    · intro m hm
      simp [defaultContext] at hm

theorem applyOp_no_system {st : Store} {op : StoreOp}
    (hst : NoSystemInStore st) (hop : NoSystemInOp op) :
    NoSystemInStore (applyOp st op) := by
  cases op with
  | get user_id => exact (get_context_no_system hst user_id).1
  | update user_id messages model provider system_prompt temperature max_tokens =>
    intro kv hkv m hm
    unfold applyOp update_context at hkv
    rcases mem_dictSet hkv with rfl | hkv'
    · simp only [truncate_messages_spec] at hm
      exact hop m (List.mem_of_mem_drop hm)
    · exact hst _ hkv' m hm
  | clear user_id =>
    intro kv hkv
    exact hst _ (mem_dictDel hkv)
  | addUsage user_id provider tokens =>
    intro kv hkv m hm
    unfold applyOp add_tokens_used at hkv
    rcases mem_dictSet hkv with rfl | hkv'
    · exact (get_context_no_system hst user_id).2 m hm
    · exact (get_context_no_system hst user_id).1 _ hkv' m hm
  | resetUsage user_id provider =>
    intro kv hkv m hm
    unfold applyOp reset_tokens_used at hkv
    rcases mem_dictSet hkv with rfl | hkv'
    · exact (get_context_no_system hst user_id).2 m hm
    · exact (get_context_no_system hst user_id).1 _ hkv' m hm

theorem foldl_no_system : ∀ (ops : List StoreOp) (st : Store), NoSystemInStore st →
    (∀ op ∈ ops, NoSystemInOp op) → NoSystemInStore (ops.foldl applyOp st) := by
  intro ops
  induction ops with
  | nil => intro st hst _; exact hst
  | cons op rest ih =>
    intro st hst hops
    exact ih _ (applyOp_no_system hst (hops op (List.mem_cons_self _ _)))
      (fun o ho => hops o (List.mem_cons_of_mem _ ho))

/-- C9 (amended): for every operation sequence starting from the empty
store in which every `update`'s message list is free of `system`-role
messages — as the orchestrating bot code guarantees — no stored session's
history ever contains a `system`-role message. The store itself applies no
filtering, so the restriction on `update` inputs is necessary. -/
theorem store_history_never_system (ops : List StoreOp)
    (hops : ∀ op ∈ ops, NoSystemInOp op) :
    ∀ (user_id : Int) (s : Session), dictGet? (runOps ops) user_id = some s →
      ∀ m ∈ s.messages, m.role ≠ "system" := by
  intro user_id s hs m hm
  exact foldl_no_system ops []
    (fun kv hkv => absurd hkv (List.not_mem_nil kv)) hops _ (dictGet?_mem hs) m hm

theorem store_history_never_system_witness :
    ({ role := "user", content := "hi" } : Msg).role ≠ "system" :=
  store_history_never_system
    [StoreOp.update 1 [{ role := "user", content := "hi" }] "gpt-3.5-turbo" "openai"
      none 0 1000]
    (by
      intro op hop
      simp only [List.mem_singleton] at hop
      subst hop
      simp only [NoSystemInOp]
      intro m hm
      simp only [List.mem_singleton] at hm
      subst hm
      decide)
    1
    { messages := [{ role := "user", content := "hi" }], model := "gpt-3.5-turbo",
      provider := "openai", system_prompt := none, temperature := 0,
      max_tokens := 1000, tokens_used := some defaultTokensUsed }
    (by rfl)
    { role := "user", content := "hi" }
    (List.mem_singleton.mpr rfl)

/-! ## Persistence (`_save_contexts` / `_load_contexts`), claim C7 -/

/-- The character for one decimal digit. -/
def digitChar (d : Nat) : Char := Char.ofNat (48 + d)

/-- Decimal representation of a natural number, most significant digit
first — the textual form a JSON writer gives a numeric object key. -/
def natKeyRepr (n : Nat) : List Char :=
  if _h : n < 10 then [digitChar n]
  else natKeyRepr (n / 10) ++ [digitChar (n % 10)]
decreasing_by exact Nat.div_lt_self (by omega) (by omega)

/-- Is the character a decimal digit. -/
def isDigitChar (c : Char) : Bool := decide (48 ≤ c.toNat) && decide (c.toNat ≤ 57)

/-- Numeric value of a digit character. -/
def digitVal (c : Char) : Nat := c.toNat - 48

/-- Decimal parse of a digit sequence, the accepting core of Python
`int(...)`. -/
def parseNatKey (cs : List Char) : Option Nat :=
  if cs ≠ [] ∧ cs.all isDigitChar then
    some (cs.foldl (fun acc c => acc * 10 + digitVal c) 0)
  else none

/-- Textual JSON form of an integer user key, as `json.dump` writes it. -/
def intKeyRepr (k : Int) : String :=
  if k < 0 then String.mk ('-' :: natKeyRepr (-k).toNat)
  else String.mk (natKeyRepr k.toNat)

/-- Python `int(...)` applied to a key's character list: an optional minus
sign followed by decimal digits; `none` models the `ValueError` raise. -/
def parseIntKeyChars : List Char → Option Int
  | [] => none
  | c :: rest =>
    if c = '-' then (parseNatKey rest).map (fun (n : Nat) => -(n : Int))
    else (parseNatKey (c :: rest)).map (fun (n : Nat) => (n : Int))

/-- Python `int(...)` applied to a JSON object key string. -/
def parseIntKey (s : String) : Option Int := parseIntKeyChars s.data

theorem digitVal_digitChar {d : Nat} (h : d < 10) : digitVal (digitChar d) = d := by
  interval_cases d <;> rfl

theorem isDigitChar_digitChar {d : Nat} (h : d < 10) :
    isDigitChar (digitChar d) = true := by
  interval_cases d <;> rfl

theorem isDigitChar_ne_minus {c : Char} (h : isDigitChar c = true) : c ≠ '-' := by
  intro hEq
  subst hEq
  exact absurd h (by decide)

theorem natKeyRepr_ne_nil (n : Nat) : natKeyRepr n ≠ [] := by
  rw [natKeyRepr]
  by_cases h : n < 10
  · simp [h]
  · simp [h]

theorem natKeyRepr_all_digits (n : Nat) : (natKeyRepr n).all isDigitChar = true := by
  induction n using Nat.strong_induction_on with
  | _ n ih =>
    rw [natKeyRepr]
    by_cases h : n < 10
    · simp [h, isDigitChar_digitChar h]
    · have h10 : n / 10 < n := Nat.div_lt_self (by omega) (by omega)
      have hm : n % 10 < 10 := Nat.mod_lt _ (by omega)
      simp [h, List.all_append, ih _ h10, isDigitChar_digitChar hm]

theorem natKeyRepr_foldl (n : Nat) : ∀ acc : Nat,
    (natKeyRepr n).foldl (fun acc c => acc * 10 + digitVal c) acc
      = acc * 10 ^ (natKeyRepr n).length + n := by
  induction n using Nat.strong_induction_on with
  | _ n ih =>
    intro acc
    rw [natKeyRepr]
    by_cases h : n < 10
    · simp [h, List.foldl, digitVal_digitChar h]
    · have h10 : n / 10 < n := Nat.div_lt_self (by omega) (by omega)
      have hm : n % 10 < 10 := Nat.mod_lt _ (by omega)
      rw [dif_neg h, List.foldl_append, ih _ h10 acc, List.length_append]
      have key : n / 10 * 10 + n % 10 = n := by omega
      simp only [List.foldl_cons, List.foldl_nil]
      calc ((acc * 10 ^ (natKeyRepr (n / 10)).length + n / 10) * 10
              + digitVal (digitChar (n % 10)))
          = acc * (10 ^ (natKeyRepr (n / 10)).length * 10)
              + (n / 10 * 10 + n % 10) := by rw [digitVal_digitChar hm]; ring
        _ = acc * 10 ^ ((natKeyRepr (n / 10)).length + [digitChar (n % 10)].length)
              + n := by rw [key, List.length_singleton, pow_succ]

theorem parseNatKey_natKeyRepr (n : Nat) : parseNatKey (natKeyRepr n) = some n := by
  rw [parseNatKey, if_pos ⟨natKeyRepr_ne_nil n, natKeyRepr_all_digits n⟩,
    natKeyRepr_foldl n 0]
  simp

theorem parseIntKey_intKeyRepr (k : Int) : parseIntKey (intKeyRepr k) = some k := by
  by_cases hk : k < 0
  · rw [intKeyRepr, if_pos hk]
    show parseIntKeyChars ('-' :: natKeyRepr (-k).toNat) = some k
    rw [parseIntKeyChars, if_pos rfl, parseNatKey_natKeyRepr, Option.map_some']
    rw [Int.toNat_of_nonneg (by omega : (0 : Int) ≤ -k), neg_neg]
  · rw [intKeyRepr, if_neg hk]
    show parseIntKeyChars (natKeyRepr k.toNat) = some k
    cases hcs : natKeyRepr k.toNat with
    | nil => exact absurd hcs (natKeyRepr_ne_nil _)
    | cons c rest =>
      have hdig : isDigitChar c = true := by
        have hall := natKeyRepr_all_digits k.toNat
        rw [hcs, List.all_cons, Bool.and_eq_true] at hall
        exact hall.1
      rw [parseIntKeyChars, if_neg (isDigitChar_ne_minus hdig), ← hcs,
        parseNatKey_natKeyRepr, Option.map_some']
      rw [Int.toNat_of_nonneg (by omega)]

/-- `ContextManager._save_contexts`: serialize the store, numeric keys
taking their textual JSON form. -/
def save_contexts (st : Store) : List (String × Session) :=
  st.map (fun kv => (intKeyRepr kv.1, kv.2))

/-- `ContextManager._load_contexts` on a persisted object with these
sessions: convert every key back with `int(...)`; any failing key raises
`ValueError`, caught to restart from the empty store. -/
def load_contexts (file : List (String × Session)) : Store :=
  if file.all (fun kv => (parseIntKey kv.1).isSome) then
    file.filterMap (fun kv => (parseIntKey kv.1).map (fun k => (k, kv.2)))
  else []

theorem filterMap_save_contexts (st : Store) :
    (save_contexts st).filterMap
        (fun kv => (parseIntKey kv.1).map (fun k => (k, kv.2))) = st := by
  induction st with
  | nil => rfl
  | cons kv rest ih =>
    simp only [save_contexts, List.map_cons, List.filterMap_cons,
      parseIntKey_intKeyRepr, Option.map_some'] at ih ⊢
    rw [ih]

theorem load_save_contexts (st : Store) : load_contexts (save_contexts st) = st := by
  have hall : (save_contexts st).all (fun kv => (parseIntKey kv.1).isSome) = true := by
    rw [List.all_eq_true]
    intro kv hkv
    rw [save_contexts] at hkv
    obtain ⟨kv0, _, rfl⟩ := List.mem_map.mp hkv
    simp [parseIntKey_intKeyRepr]
  rw [load_contexts, if_pos hall]
  exact filterMap_save_contexts st

/-- C7: saving then loading reproduces the store exactly — every numeric
user key round-trips through its textual JSON form with the same field
values — and a stored session whose `tokens_used` mapping lacks a provider
key reads back 0 for that provider through `get_tokens_used`. -/
theorem contexts_save_load_roundtrip :
    (∀ st : Store, load_contexts (save_contexts st) = st) ∧
    (∀ (st : Store) (user_id : Int) (c : Session) (provider : String),
      dictGet? st user_id = some c →
      dictGet? (c.tokens_used.getD defaultTokensUsed) provider = none →
      (get_tokens_used st user_id provider).2 = 0) := by
  refine ⟨load_save_contexts, ?_⟩
  intro st user_id c provider hc hp
  simp [get_tokens_used, get_context, hc, hp]

theorem contexts_save_load_roundtrip_witness :
    (get_tokens_used
        [(1, { messages := [], model := "gpt-3.5-turbo", provider := "openai",
               system_prompt := none, temperature := 0, max_tokens := 1000,
               tokens_used := some [("openai", 7)] })] 1 "anthropic").2 = 0 :=
  contexts_save_load_roundtrip.2 _ 1
    { messages := [], model := "gpt-3.5-turbo", provider := "openai",
      system_prompt := none, temperature := 0, max_tokens := 1000,
      tokens_used := some [("openai", 7)] } "anthropic" rfl rfl

/-! ## Claim C8: load error handling on raw file contents -/

/-- A parsed JSON value. -/
inductive Json where
  | null
  | bool (b : Bool)
  | num (n : Int)
  | str (s : String)
  | arr (xs : List Json)
  | obj (kvs : List (String × Json))

/-- The state of the persistence file as `_load_contexts` finds it. -/
inductive FileState where
  | missing
  | unparseable
  | parsed (j : Json)

/-- The Python exceptions arising inside `_load_contexts`. -/
inductive PyExc where
  | jsonDecodeError
  | valueError
  | attributeError
deriving DecidableEq

/-- The `try` body of `_load_contexts`: `json.load` raises
`JSONDecodeError` on unparseable input; `data.items()` raises
`AttributeError` when the document's top level is not an object; `int(k)`
raises `ValueError` on a non-numeric key. A missing file leaves the
initial empty mapping. -/
def load_contexts_body : FileState → Except PyExc (List (Int × Json))
  | .missing => .ok []
  | .unparseable => .error .jsonDecodeError
  | .parsed (.obj kvs) =>
    if kvs.all (fun kv => (parseIntKey kv.1).isSome) then
      .ok (kvs.filterMap (fun kv => (parseIntKey kv.1).map (fun k => (k, kv.2))))
    else .error .valueError
  | .parsed .null => .error .attributeError
  | .parsed (.bool _) => .error .attributeError
  | .parsed (.num _) => .error .attributeError
  | .parsed (.str _) => .error .attributeError
  | .parsed (.arr _) => .error .attributeError

/-- `_load_contexts` with its
`except (json.JSONDecodeError, FileNotFoundError, ValueError)` handler:
those exceptions restart from the empty store; any other exception
propagates out of the constructor. -/
def load_contexts_raw (fs : FileState) : Except PyExc (List (Int × Json)) :=
  match load_contexts_body fs with
  | .ok st => .ok st
  | .error .jsonDecodeError => .ok []
  | .error .valueError => .ok []
  | .error .attributeError => .error .attributeError

/-- C8 (counterexample): a persistence file holding valid JSON whose top
level is a list — not an object — makes `_load_contexts` raise an uncaught
`AttributeError` instead of starting from an empty store. -/
theorem load_contexts_raises_on_array :
    load_contexts_raw (FileState.parsed (Json.arr []))
      = Except.error PyExc.attributeError := rfl

/-- C8 (amended): loading tolerates a missing file, unparseable JSON and a
JSON object with a non-numeric key — in those malformed cases it never
raises and the store starts empty — but valid JSON whose top level is not
an object escapes the handler as an uncaught `AttributeError`. -/
theorem load_contexts_error_handling :
    load_contexts_raw FileState.missing = Except.ok [] ∧
    load_contexts_raw FileState.unparseable = Except.ok [] ∧
    (∀ kvs : List (String × Json),
      (∃ kv ∈ kvs, parseIntKey kv.1 = none) →
      load_contexts_raw (FileState.parsed (Json.obj kvs)) = Except.ok []) ∧
    (∀ j : Json, (∀ kvs, j ≠ Json.obj kvs) →
      load_contexts_raw (FileState.parsed j) = Except.error PyExc.attributeError) := by
  refine ⟨rfl, rfl, ?_, ?_⟩
  · intro kvs hex
    obtain ⟨kv, hkv, hnone⟩ := hex
    by_cases hall : kvs.all (fun kv => (parseIntKey kv.1).isSome) = true
    · rw [List.all_eq_true] at hall
      have hsome := hall kv hkv
      rw [hnone] at hsome
      simp at hsome
    · have hall' : kvs.all (fun kv => (parseIntKey kv.1).isSome) = false := by
        revert hall
        cases kvs.all (fun kv => (parseIntKey kv.1).isSome) <;> simp
      simp [load_contexts_raw, load_contexts_body, hall']
  · intro j hj
    cases j with
    | obj kvs => exact absurd rfl (hj kvs)
    | null => rfl
    | bool b => rfl
    | num n => rfl
    | str s => rfl
    | arr xs => rfl

theorem load_contexts_error_handling_witness :
    load_contexts_raw (FileState.parsed (Json.obj [("x", Json.null)])) = Except.ok [] :=
  load_contexts_error_handling.2.2.1 [("x", Json.null)]
    ⟨("x", Json.null), List.mem_singleton.mpr rfl, by decide⟩
